import Mathlib

/-!
# Image-registry operator: owner references, fake typed client, S3 environment check

A shallow embedding of three source files of the operator:

* `pkg/resource/utils.go`: `addOwnerRefToObject` and `asOwner`;
* `pkg/generated/clientset/versioned/typed/imageregistry/v1/fake/fake_imageregistry_client.go`:
  `FakeImageregistryV1.Configs` and `FakeImageregistryV1.RESTClient`;
* `test/e2e/aws_test.go`: the expected variables `awsEnvVars` and the loop that compares
  them with the environment of the registry container.

Go pointers that are only ever compared with `nil` or dereferenced by `reflect.DeepEqual`
are `Option`s; Go slices are `List`s; code that mutates its receiver is a function from the
old state to the new one.
-/

namespace ImageRegistry

/-! ## Data model -/

/-- The `schema.GroupVersion` of apimachinery: an API group and a version. -/
structure GroupVersion where
  Group : String
  Version : String
deriving DecidableEq, Repr

/-- `GroupVersion.Empty`: both the group and the version have length zero. -/
def GroupVersion.Empty (gv : GroupVersion) : Bool :=
  gv.Group.length == 0 && gv.Version.length == 0

/-- `GroupVersion.String`: the empty string for the empty value, the bare version when
there is no group, and `group/version` otherwise. -/
def GroupVersion.String (gv : GroupVersion) : String :=
  if gv.Empty then ""
  else if gv.Group.length == 0 && gv.Version == "v1" then gv.Version
  else if gv.Group.length > 0 then gv.Group ++ "/" ++ gv.Version
  else gv.Version

/-- The `metav1.OwnerReference`; the two `*bool` fields are optional booleans. -/
structure OwnerReference where
  APIVersion : String
  Kind : String
  Name : String
  UID : String
  Controller : Option Bool
  BlockOwnerDeletion : Option Bool
deriving DecidableEq, Repr

/-- The `metav1.ObjectMeta` carried by every API object. -/
structure ObjectMeta where
  Name : String
  GenerateName : String
  Namespace : String
  SelfLink : String
  UID : String
  ResourceVersion : String
  Generation : Int
  CreationTimestamp : Option String
  DeletionTimestamp : Option String
  DeletionGracePeriodSeconds : Option Int
  Labels : List (String × String)
  Annotations : List (String × String)
  OwnerReferences : List OwnerReference
  Finalizers : List String
  ClusterName : String
deriving DecidableEq, Repr

/-- The `metav1.TypeMeta` of an API object. -/
structure TypeMeta where
  Kind : String
  APIVersion : String
deriving DecidableEq, Repr

/-- The `v1.Config` custom resource. Its declaration lies outside the embedded files, so
the types of its spec and status are parameters. -/
structure Config (σ τ : Type) where
  TypeMeta : TypeMeta
  ObjectMeta : ObjectMeta
  Spec : σ
  Status : τ

/-- An API object seen through the `metav1.Object` interface: the embedded `ObjectMeta`
whose accessors are promoted, and the rest of the object (`β`), which the interface cannot
reach. -/
structure Object (β : Type) where
  ObjectMeta : ObjectMeta
  body : β

/-! ## `pkg/resource/utils.go` -/

/-- `(*ObjectMeta).GetOwnerReferences`. -/
def ObjectMeta.GetOwnerReferences (m : ObjectMeta) : List OwnerReference :=
  m.OwnerReferences

/-- `(*ObjectMeta).SetOwnerReferences`: overwrites the owner-reference field. -/
def ObjectMeta.SetOwnerReferences (m : ObjectMeta) (references : List OwnerReference) :
    ObjectMeta :=
  { m with OwnerReferences := references }

/-- The accessor `GetOwnerReferences` promoted to the object. -/
def Object.GetOwnerReferences {β : Type} (obj : Object β) : List OwnerReference :=
  obj.ObjectMeta.GetOwnerReferences

/-- The accessor `SetOwnerReferences` promoted to the object. -/
def Object.SetOwnerReferences {β : Type} (obj : Object β)
    (references : List OwnerReference) : Object β :=
  { obj with ObjectMeta := obj.ObjectMeta.SetOwnerReferences references }

/-- `addOwnerRefToObject`: the object after
`obj.SetOwnerReferences(append(obj.GetOwnerReferences(), ownerRef))`. -/
def addOwnerRefToObject {β : Type} (obj : Object β) (ownerRef : OwnerReference) :
    Object β :=
  obj.SetOwnerReferences (obj.GetOwnerReferences ++ [ownerRef])

/-- `cr.GetName()`: reads the name through the pointer; the result is paired with the
Config as the call leaves it. -/
def Config.GetName {σ τ : Type} (cr : Config σ τ) : String × Config σ τ :=
  (cr.ObjectMeta.Name, cr)

/-- `cr.GetUID()`: reads the UID through the pointer; the result is paired with the
Config as the call leaves it. -/
def Config.GetUID {σ τ : Type} (cr : Config σ τ) : String × Config σ τ :=
  (cr.ObjectMeta.UID, cr)

/-- `asOwner` with the Config passed as state: the returned reference together with the
Config as the call leaves it. `SchemeGroupVersion` is declared outside the embedded files
and is the parameter `gv`. -/
def asOwnerRun {σ τ : Type} (gv : GroupVersion) (cr : Config σ τ) :
    OwnerReference × Config σ τ :=
  let blockOwnerDeletion := true
  let isController := true
  let apiVersion := gv.String
  let (name, cr1) := cr.GetName
  let (uid, cr2) := cr1.GetUID
  ({ APIVersion := apiVersion
     Kind := "Config"
     Name := name
     UID := uid
     BlockOwnerDeletion := some blockOwnerDeletion
     Controller := some isController }, cr2)

/-- `asOwner`: the OwnerReference that `asOwner(cr)` returns. -/
def asOwner {σ τ : Type} (gv : GroupVersion) (cr : Config σ τ) : OwnerReference :=
  (asOwnerRun gv cr).1

/-- The API group and version under which the operator registers `Config`. -/
def exampleGroupVersion : GroupVersion :=
  { Group := "imageregistry.operator.openshift.io", Version := "v1" }

/-- A metadata value with the given name and UID and nothing else set. -/
def exampleMeta (name uid : String) (refs : List OwnerReference) : ObjectMeta :=
  { Name := name, GenerateName := "", Namespace := "", SelfLink := "", UID := uid
    ResourceVersion := "", Generation := 0, CreationTimestamp := none
    DeletionTimestamp := none, DeletionGracePeriodSeconds := none, Labels := []
    Annotations := [], OwnerReferences := refs, Finalizers := [], ClusterName := "" }

/-- A Config named `name` with UID `uid`, with unit spec and status. -/
def exampleConfig (name uid : String) : Config Unit Unit :=
  { TypeMeta := { Kind := "Config", APIVersion := "imageregistry.operator.openshift.io/v1" }
    ObjectMeta := exampleMeta name uid []
    Spec := ()
    Status := () }

/-- A child object named `name` carrying the owner references `refs`. -/
def exampleObject (name : String) (refs : List OwnerReference) : Object Unit :=
  { ObjectMeta := exampleMeta name "" refs, body := () }

/-- A reference is a controller reference when its `Controller` pointer is set and true
(the test made by `metav1.GetControllerOf`). -/
def OwnerReference.isController (r : OwnerReference) : Bool :=
  r.Controller == some true

/-- A reference points at the Config `cr` when its APIVersion, Kind, Name and UID are those
of `cr` under the group and version `gv`. -/
def OwnerReference.pointsAt {σ τ : Type} (gv : GroupVersion) (cr : Config σ τ)
    (r : OwnerReference) : Bool :=
  r.APIVersion == gv.String && r.Kind == "Config" && r.Name == cr.ObjectMeta.Name
    && r.UID == cr.ObjectMeta.UID

/-! ## `fake_imageregistry_client.go` -/

/-- A typed Go pointer: the address of a value of type `α`. A pointer that may be `nil` is
an `Option (Ptr α)`. -/
structure Ptr (α : Type) where
  addr : Nat
deriving DecidableEq, Repr

/-- An action recorded by a `testing.Fake`: a verb and a resource. -/
structure Action where
  Verb : String
  Resource : String
deriving DecidableEq, Repr

/-- The `testing.Fake` of client-go, as far as it is observed here: its recorded actions. -/
structure TestingFake where
  actions : List Action
deriving DecidableEq, Repr

/-- `type FakeImageregistryV1 struct { *testing.Fake }`: the embedded pointer. -/
structure FakeImageregistryV1 where
  Fake : Option (Ptr TestingFake)
deriving DecidableEq, Repr

/-- `FakeConfigs`, declared in a sibling generated file as
`struct { Fake *FakeImageregistryV1 }`. -/
structure FakeConfigs where
  Fake : Option (Ptr FakeImageregistryV1)
deriving DecidableEq, Repr

/-- The `rest.RESTClient` of client-go; nothing of it is observed here. -/
structure RESTClient where
  base : String
deriving DecidableEq, Repr

/-- A value of the interface `v1.ConfigInterface`: the nil interface, or a `*FakeConfigs`
pointing at a struct with the given contents. -/
inductive ConfigInterface where
  | nilInterface : ConfigInterface
  | fakeConfigs (p : FakeConfigs) : ConfigInterface
deriving DecidableEq, Repr

/-- A value of the interface `rest.Interface`: the nil interface, or a `*rest.RESTClient`
which may itself be a nil pointer. -/
inductive RestInterface where
  | nilInterface : RestInterface
  | restClient (p : Option (Ptr RESTClient)) : RestInterface
deriving DecidableEq, Repr

/-- The part of the heap the fake client lives in: the clients and the fakes, by address. -/
structure Heap where
  clients : Nat → Option FakeImageregistryV1
  fakes : Nat → Option TestingFake

/-- `FakeImageregistryV1.Configs`: `return &FakeConfigs{c}`. -/
def FakeImageregistryV1.Configs (c : Option (Ptr FakeImageregistryV1)) : ConfigInterface :=
  ConfigInterface.fakeConfigs { Fake := c }

/-- `FakeImageregistryV1.RESTClient`: `var ret *rest.RESTClient; return ret`. -/
def FakeImageregistryV1.RESTClient (_c : Option (Ptr FakeImageregistryV1)) : RestInterface :=
  let ret : Option (Ptr ImageRegistry.RESTClient) := none
  RestInterface.restClient ret

/-- The `testing.Fake` a client pointer leads to: `c.Fake`, when `c` is not nil and
allocated. -/
def Heap.fakeOfClient (h : Heap) (c : Option (Ptr FakeImageregistryV1)) :
    Option (Ptr TestingFake) :=
  match c with
  | none => none
  | some p =>
    match h.clients p.addr with
    | none => none
    | some client => client.Fake

/-- The `testing.Fake` that a `ConfigInterface` value records on: for a `*FakeConfigs`
it is `c.Fake.Fake`, the fake embedded in the client the struct holds. -/
def Heap.fakeOfConfigs (h : Heap) (ci : ConfigInterface) : Option (Ptr TestingFake) :=
  match ci with
  | ConfigInterface.nilInterface => none
  | ConfigInterface.fakeConfigs fc => h.fakeOfClient fc.Fake

/-! ## `test/e2e/aws_test.go` -/

/-- The `corev1.ObjectFieldSelector`. -/
structure ObjectFieldSelector where
  APIVersion : String
  FieldPath : String
deriving DecidableEq, Repr

/-- The `big.Int` inside a quantity: a sign and a slice of words (`none` is the nil
slice, which `reflect.DeepEqual` tells apart from an empty one). -/
structure BigInt where
  neg : Bool
  abs : Option (List Nat)
deriving DecidableEq, Repr

/-- The `inf.Dec` inside a quantity. -/
structure InfDec where
  unscaled : BigInt
  scale : Int
deriving DecidableEq, Repr

/-- The `resource.Quantity`, field by field as `reflect.DeepEqual` sees it. -/
structure Quantity where
  iValue : Int
  iScale : Int
  d : Option InfDec
  s : String
  Format : String
deriving DecidableEq, Repr

/-- The `corev1.ResourceFieldSelector`. -/
structure ResourceFieldSelector where
  ContainerName : String
  Resource : String
  Divisor : Quantity
deriving DecidableEq, Repr

/-- The `corev1.LocalObjectReference`. -/
structure LocalObjectReference where
  Name : String
deriving DecidableEq, Repr

/-- The `corev1.ConfigMapKeySelector`. -/
structure ConfigMapKeySelector where
  LocalObjectReference : LocalObjectReference
  Key : String
  Optional : Option Bool
deriving DecidableEq, Repr

/-- The `corev1.SecretKeySelector`. -/
structure SecretKeySelector where
  LocalObjectReference : LocalObjectReference
  Key : String
  Optional : Option Bool
deriving DecidableEq, Repr

/-- The `corev1.EnvVarSource`: four pointers, each of which may be nil. -/
structure EnvVarSource where
  FieldRef : Option ObjectFieldSelector
  ResourceFieldRef : Option ResourceFieldSelector
  ConfigMapKeyRef : Option ConfigMapKeySelector
  SecretKeyRef : Option SecretKeySelector
deriving DecidableEq, Repr

/-- The `corev1.EnvVar`. -/
structure EnvVar where
  Name : String
  Value : String
  ValueFrom : Option EnvVarSource
deriving DecidableEq, Repr

/-- `reflect.DeepEqual` on two `EnvVar`s: strings, integers and booleans are compared by
value, pointers by what they point at, slices by nil-ness, length and elements; on this
type that is equality of the values. -/
def deepEqual (v val : EnvVar) : Bool :=
  decide (v = val)

/-- A secret-sourced variable as written twice in `awsEnvVars`: empty literal value and a
`SecretKeyRef` to the key `key` of the secret `image-registry-private-configuration`. -/
def secretEnvVar (key : String) : EnvVar :=
  { Name := key
    Value := ""
    ValueFrom := some
      { FieldRef := none
        ResourceFieldRef := none
        ConfigMapKeyRef := none
        SecretKeyRef := some
          { LocalObjectReference := { Name := "image-registry-private-configuration" }
            Key := key
            Optional := none } } }

/-- `awsEnvVars` of `TestAWS`, for the storage type of the cluster configuration and the
bucket and region of the custom resource. -/
def awsEnvVars (storageType bucket region : String) : List EnvVar :=
  [ { Name := "REGISTRY_STORAGE", Value := storageType, ValueFrom := none },
    { Name := "REGISTRY_STORAGE_S3_BUCKET", Value := bucket, ValueFrom := none },
    { Name := "REGISTRY_STORAGE_S3_REGION", Value := region, ValueFrom := none },
    secretEnvVar "REGISTRY_STORAGE_S3_ACCESSKEY",
    secretEnvVar "REGISTRY_STORAGE_S3_SECRETKEY" ]

/-- An error reported with `t.Errorf` by the environment check. -/
inductive CheckError where
  | incorrectData (expected got : EnvVar) : CheckError
  | notFound (wanted : String) : CheckError
deriving DecidableEq, Repr

/-- The inner loop of the check, over the environment of the container: `found` and the
errors reported so far are the state. -/
def checkInner (val : EnvVar) : List EnvVar → Bool × List CheckError → Bool × List CheckError
  | [], st => st
  | v :: rest, (found, errs) =>
    if v.Name == val.Name then
      if !deepEqual v val then
        checkInner val rest (true, errs ++ [CheckError.incorrectData val v])
      else
        checkInner val rest (true, errs)
    else
      checkInner val rest (found, errs)

/-- The outer loop of the check, over the expected variables; the errors reported so far
are the state. -/
def checkOuter (env : List EnvVar) : List EnvVar → List CheckError → List CheckError
  | [], errs => errs
  | val :: rest, errs =>
    let (found, errs1) := checkInner val env (false, errs)
    if !found then
      checkOuter env rest (errs1 ++ [CheckError.notFound val.Name])
    else
      checkOuter env rest errs1

/-- The environment check of `TestAWS`: the errors it reports, in order, for the expected
variables `expected` and the container environment `env`. -/
def checkEnvVars (expected env : List EnvVar) : List CheckError :=
  checkOuter env expected []

/-- Whether a variable carries the name of one of the expected variables. -/
def hasExpectedName (expected : List EnvVar) (v : EnvVar) : Bool :=
  expected.any (fun e => e.Name == v.Name)

/-! ## Concrete values used to instantiate the theorems -/

/-- The reference `asOwner` builds for the Config `cluster` with UID `uid-1`. -/
def exampleOwner : OwnerReference :=
  asOwner exampleGroupVersion (exampleConfig "cluster" "uid-1")

/-- A controller reference of some other controller. -/
def otherController : OwnerReference :=
  { APIVersion := "apps/v1", Kind := "ReplicaSet", Name := "rs", UID := "uid-9"
    Controller := some true, BlockOwnerDeletion := some true }

/-- A Config named `cluster` with UID `uid-1` whose namespace, labels, owner references,
spec and status all differ from those of `exampleConfig`. -/
def exampleConfigOther : Config String Nat :=
  { TypeMeta := { Kind := "", APIVersion := "" }
    ObjectMeta :=
      { exampleMeta "cluster" "uid-1" [otherController] with
        Namespace := "openshift-image-registry", Labels := [("a", "b")] }
    Spec := "s3"
    Status := 7 }

/-- A heap with one fake client at address 4 whose embedded fake is at address 8. -/
def exampleHeap : Heap :=
  { clients := fun a => if a = 4 then some { Fake := some { addr := 8 } } else none
    fakes := fun a => if a = 8 then some { actions := [] } else none }

/-- A container environment that passes the check for `s3`, `bucket`, `us-east-1`: the
expected variables in another order, with one unrelated variable in front. -/
def exampleEnv : List EnvVar :=
  { Name := "HTTP_PORT", Value := "5000", ValueFrom := none }
    :: (awsEnvVars "s3" "bucket" "us-east-1").reverse

/-! ## Theorems about `pkg/resource/utils.go` -/

theorem string_length_pos_of_ne_empty (s : String) (h : s ≠ "") : 0 < s.length := by
  rcases s with ⟨l⟩
  cases l with
  | nil => exact absurd rfl h
  | cons a t => simp [String.length]

theorem groupVersion_string_of_group (gv : GroupVersion) (h : gv.Group ≠ "") :
    gv.String = gv.Group ++ "/" ++ gv.Version := by
  have hpos : 0 < gv.Group.length := string_length_pos_of_ne_empty _ h
  have hne : gv.Group.length ≠ 0 := Nat.pos_iff_ne_zero.mp hpos
  simp [GroupVersion.String, GroupVersion.Empty, hne, hpos]

/-- C1: for every Config, `asOwner` returns a reference whose APIVersion is the string
form of `SchemeGroupVersion` (which is `group/version` for a non-empty group), whose Kind
is `Config`, whose Name and UID are those of the Config, and whose BlockOwnerDeletion and
Controller are both set and true. -/
theorem asOwner_fields {σ τ : Type} (gv : GroupVersion) (cr : Config σ τ) :
    (asOwner gv cr).APIVersion = gv.String
      ∧ (gv.Group ≠ "" → (asOwner gv cr).APIVersion = gv.Group ++ "/" ++ gv.Version)
      ∧ (asOwner gv cr).Kind = "Config"
      ∧ (asOwner gv cr).Name = cr.ObjectMeta.Name
      ∧ (asOwner gv cr).UID = cr.ObjectMeta.UID
      ∧ (asOwner gv cr).BlockOwnerDeletion = some true
      ∧ (asOwner gv cr).Controller = some true :=
  ⟨rfl, fun h => groupVersion_string_of_group gv h, rfl, rfl, rfl, rfl, rfl⟩

theorem asOwner_fields_witness :
    (asOwner exampleGroupVersion (exampleConfig "cluster" "uid-1")).APIVersion
        = "imageregistry.operator.openshift.io/v1"
      ∧ (asOwner exampleGroupVersion (exampleConfig "cluster" "uid-1")).Name = "cluster" :=
  have h := asOwner_fields exampleGroupVersion (exampleConfig "cluster" "uid-1")
  ⟨h.2.1 (by decide), h.2.2.2.1⟩

/-- C2: when the child object has no owner references yet, after
`addOwnerRefToObject(obj, asOwner(cr))` its owner references are exactly one entry, and that
entry has controller and blockOwnerDeletion set to true and the name and UID of the Config. -/
theorem addOwnerRef_fresh_object {β σ τ : Type} (gv : GroupVersion) (cr : Config σ τ)
    (obj : Object β) (h : obj.GetOwnerReferences = []) :
    (addOwnerRefToObject obj (asOwner gv cr)).GetOwnerReferences.length = 1
      ∧ ∃ r, (addOwnerRefToObject obj (asOwner gv cr)).GetOwnerReferences = [r]
          ∧ r.Controller = some true ∧ r.BlockOwnerDeletion = some true
          ∧ r.Name = cr.ObjectMeta.Name ∧ r.UID = cr.ObjectMeta.UID := by
  have hrefs : (addOwnerRefToObject obj (asOwner gv cr)).GetOwnerReferences
      = [asOwner gv cr] := by
    show obj.GetOwnerReferences ++ [asOwner gv cr] = [asOwner gv cr]
    rw [h]; rfl
  refine ⟨by rw [hrefs]; rfl, asOwner gv cr, hrefs, rfl, rfl, rfl, rfl⟩

theorem addOwnerRef_fresh_object_witness :
    (addOwnerRefToObject (exampleObject "registry" []) exampleOwner).GetOwnerReferences.length
      = 1 :=
  (addOwnerRef_fresh_object exampleGroupVersion (exampleConfig "cluster" "uid-1")
    (exampleObject "registry" []) rfl).1

theorem ownerReferences_after_add {β : Type} (obj : Object β) (r : OwnerReference) :
    (addOwnerRefToObject obj r).GetOwnerReferences = obj.GetOwnerReferences ++ [r] :=
  rfl

theorem pointsAt_asOwner {σ τ : Type} (gv : GroupVersion) (cr : Config σ τ) :
    (asOwner gv cr).pointsAt gv cr = true := by
  simp [OwnerReference.pointsAt, asOwner, asOwnerRun, Config.GetName, Config.GetUID]

/-- C3, at concrete inputs: an object that already carries the reference of the Config
carries two references pointing at the Config after `addOwnerRefToObject`, not one, and two
controller references; and an object controlled by another controller ends with two
controller references. -/
theorem addOwnerRef_duplicates :
    (addOwnerRefToObject (exampleObject "registry" [exampleOwner])
        exampleOwner).GetOwnerReferences.countP
          (OwnerReference.pointsAt exampleGroupVersion (exampleConfig "cluster" "uid-1")) = 2
      ∧ (addOwnerRefToObject (exampleObject "registry" [exampleOwner])
        exampleOwner).GetOwnerReferences.countP
          (OwnerReference.pointsAt exampleGroupVersion (exampleConfig "cluster" "uid-1")) ≠ 1
      ∧ (addOwnerRefToObject (exampleObject "registry" [exampleOwner])
        exampleOwner).GetOwnerReferences.countP OwnerReference.isController = 2
      ∧ (addOwnerRefToObject (exampleObject "registry" [otherController])
        exampleOwner).GetOwnerReferences.countP OwnerReference.isController = 2
      ∧ (addOwnerRefToObject (exampleObject "registry" [otherController])
        exampleOwner).GetOwnerReferences.countP OwnerReference.isController ≠ 1 := by
  decide

/-- C3, amended: `addOwnerRefToObject(obj, asOwner(cr))` adds one reference pointing at the
Config, with controller and blockOwnerDeletion true, and one controller reference, to those
the object already carries; so the object ends with exactly one reference pointing at the
Config exactly when it carried none before, and with exactly one controller reference
exactly when it carried none before. -/
theorem addOwnerRef_counts {β σ τ : Type} (gv : GroupVersion) (cr : Config σ τ)
    (obj : Object β) :
    (addOwnerRefToObject obj (asOwner gv cr)).GetOwnerReferences.countP
        (OwnerReference.pointsAt gv cr)
        = obj.GetOwnerReferences.countP (OwnerReference.pointsAt gv cr) + 1
      ∧ (addOwnerRefToObject obj (asOwner gv cr)).GetOwnerReferences.countP
        OwnerReference.isController
        = obj.GetOwnerReferences.countP OwnerReference.isController + 1
      ∧ ((addOwnerRefToObject obj (asOwner gv cr)).GetOwnerReferences.countP
          (OwnerReference.pointsAt gv cr) = 1
          ↔ obj.GetOwnerReferences.countP (OwnerReference.pointsAt gv cr) = 0)
      ∧ ((addOwnerRefToObject obj (asOwner gv cr)).GetOwnerReferences.countP
          OwnerReference.isController = 1
          ↔ obj.GetOwnerReferences.countP OwnerReference.isController = 0)
      ∧ (addOwnerRefToObject obj (asOwner gv cr)).GetOwnerReferences.getLast?
          = some (asOwner gv cr)
      ∧ (asOwner gv cr).Controller = some true
      ∧ (asOwner gv cr).BlockOwnerDeletion = some true := by
  have h1 : (addOwnerRefToObject obj (asOwner gv cr)).GetOwnerReferences.countP
        (OwnerReference.pointsAt gv cr)
        = obj.GetOwnerReferences.countP (OwnerReference.pointsAt gv cr) + 1 := by
    rw [ownerReferences_after_add, List.countP_append]
    simp [List.countP_cons, pointsAt_asOwner]
  have h2 : (addOwnerRefToObject obj (asOwner gv cr)).GetOwnerReferences.countP
        OwnerReference.isController
        = obj.GetOwnerReferences.countP OwnerReference.isController + 1 := by
    rw [ownerReferences_after_add, List.countP_append]
    simp [List.countP_cons, OwnerReference.isController, asOwner, asOwnerRun]
  refine ⟨h1, h2, ?_, ?_, ?_, rfl, rfl⟩
  · rw [h1]; omega
  · rw [h2]; omega
  · rw [ownerReferences_after_add]; simp

theorem addOwnerRef_counts_witness :
    (addOwnerRefToObject (exampleObject "registry" [])
        exampleOwner).GetOwnerReferences.countP
          (OwnerReference.pointsAt exampleGroupVersion (exampleConfig "cluster" "uid-1")) = 1
      ∧ (addOwnerRefToObject (exampleObject "registry" [])
        exampleOwner).GetOwnerReferences.countP OwnerReference.isController = 1 :=
  have h := addOwnerRef_counts exampleGroupVersion (exampleConfig "cluster" "uid-1")
    (exampleObject "registry" [])
  ⟨h.2.2.1.mpr rfl, h.2.2.2.1.mpr rfl⟩

/-- C6: after `addOwnerRefToObject(obj, r)` the owner references are the old list followed
by `r`: the old references keep their positions, `r` is last, the length grows by one, and
no other field of the object changes. -/
theorem addOwnerRef_appends {β : Type} (obj : Object β) (r : OwnerReference) :
    (addOwnerRefToObject obj r).GetOwnerReferences = obj.GetOwnerReferences ++ [r]
      ∧ (addOwnerRefToObject obj r).GetOwnerReferences.length
          = obj.GetOwnerReferences.length + 1
      ∧ (addOwnerRefToObject obj r).GetOwnerReferences.take obj.GetOwnerReferences.length
          = obj.GetOwnerReferences
      ∧ (addOwnerRefToObject obj r).GetOwnerReferences.getLast? = some r
      ∧ (addOwnerRefToObject obj r).body = obj.body
      ∧ (addOwnerRefToObject obj r).ObjectMeta
          = { obj.ObjectMeta with OwnerReferences := obj.ObjectMeta.OwnerReferences ++ [r] }
      ∧ (addOwnerRefToObject obj r).ObjectMeta.Name = obj.ObjectMeta.Name
      ∧ (addOwnerRefToObject obj r).ObjectMeta.GenerateName = obj.ObjectMeta.GenerateName
      ∧ (addOwnerRefToObject obj r).ObjectMeta.Namespace = obj.ObjectMeta.Namespace
      ∧ (addOwnerRefToObject obj r).ObjectMeta.SelfLink = obj.ObjectMeta.SelfLink
      ∧ (addOwnerRefToObject obj r).ObjectMeta.UID = obj.ObjectMeta.UID
      ∧ (addOwnerRefToObject obj r).ObjectMeta.ResourceVersion
          = obj.ObjectMeta.ResourceVersion
      ∧ (addOwnerRefToObject obj r).ObjectMeta.Generation = obj.ObjectMeta.Generation
      ∧ (addOwnerRefToObject obj r).ObjectMeta.CreationTimestamp
          = obj.ObjectMeta.CreationTimestamp
      ∧ (addOwnerRefToObject obj r).ObjectMeta.DeletionTimestamp
          = obj.ObjectMeta.DeletionTimestamp
      ∧ (addOwnerRefToObject obj r).ObjectMeta.DeletionGracePeriodSeconds
          = obj.ObjectMeta.DeletionGracePeriodSeconds
      ∧ (addOwnerRefToObject obj r).ObjectMeta.Labels = obj.ObjectMeta.Labels
      ∧ (addOwnerRefToObject obj r).ObjectMeta.Annotations = obj.ObjectMeta.Annotations
      ∧ (addOwnerRefToObject obj r).ObjectMeta.Finalizers = obj.ObjectMeta.Finalizers
      ∧ (addOwnerRefToObject obj r).ObjectMeta.ClusterName = obj.ObjectMeta.ClusterName := by
  refine ⟨rfl, ?_, ?_, ?_, rfl, rfl, rfl, rfl, rfl, rfl, rfl, rfl, rfl, rfl, rfl, rfl, rfl,
    rfl, rfl, rfl⟩
  · rw [ownerReferences_after_add]; simp
  · rw [ownerReferences_after_add]; simp
  · rw [ownerReferences_after_add]; simp

/-- C8: `asOwner` depends only on the name and UID of the Config: two Configs with the same
name and UID, whatever else they hold, give equal references; and `asOwner` leaves the
Config it is given as it was. -/
theorem asOwner_name_uid_only {σ τ σ2 τ2 : Type} (gv : GroupVersion) (cr1 : Config σ τ)
    (cr2 : Config σ2 τ2) (hname : cr1.ObjectMeta.Name = cr2.ObjectMeta.Name)
    (huid : cr1.ObjectMeta.UID = cr2.ObjectMeta.UID) :
    asOwner gv cr1 = asOwner gv cr2 ∧ (asOwnerRun gv cr1).2 = cr1 := by
  refine ⟨?_, rfl⟩
  simp [asOwner, asOwnerRun, Config.GetName, Config.GetUID, hname, huid]

theorem asOwner_name_uid_only_witness :
    asOwner exampleGroupVersion (exampleConfig "cluster" "uid-1")
        = asOwner exampleGroupVersion exampleConfigOther
      ∧ (asOwnerRun exampleGroupVersion (exampleConfig "cluster" "uid-1")).2
        = exampleConfig "cluster" "uid-1" :=
  asOwner_name_uid_only exampleGroupVersion (exampleConfig "cluster" "uid-1")
    exampleConfigOther rfl rfl

/-! ## Theorems about the fake typed client -/

/-- C9: for every fake client pointer `c`, `RESTClient` returns a nil `*rest.RESTClient`,
and `Configs` returns a `FakeConfigs` holding `c` itself, so that in every heap the
`testing.Fake` reached through the returned value is the one reached through `c`. -/
theorem fake_client_accessors (c : Option (Ptr FakeImageregistryV1)) :
    FakeImageregistryV1.RESTClient c = RestInterface.restClient none
      ∧ FakeImageregistryV1.Configs c = ConfigInterface.fakeConfigs { Fake := c }
      ∧ (∃ fc, FakeImageregistryV1.Configs c = ConfigInterface.fakeConfigs fc ∧ fc.Fake = c)
      ∧ ∀ h : Heap, h.fakeOfConfigs (FakeImageregistryV1.Configs c) = h.fakeOfClient c :=
  ⟨rfl, rfl, ⟨{ Fake := c }, rfl, rfl⟩, fun _ => rfl⟩

theorem fake_client_accessors_witness :
    exampleHeap.fakeOfConfigs (FakeImageregistryV1.Configs (some { addr := 4 }))
      = some { addr := 8 } :=
  ((fake_client_accessors (some { addr := 4 })).2.2.2 exampleHeap).trans rfl

/-! ## Theorems about the environment check of `TestAWS` -/

theorem checkInner_eq (val : EnvVar) (env : List EnvVar) (found : Bool)
    (errs : List CheckError) :
    checkInner val env (found, errs)
      = (found || env.any (fun v => v.Name == val.Name),
         errs ++ (env.filter (fun v => v.Name == val.Name && !deepEqual v val)).map
           (CheckError.incorrectData val)) := by
  induction env generalizing found errs with
  | nil => simp [checkInner]
  | cons v rest ih =>
    by_cases hn : v.Name = val.Name
    · by_cases hd : deepEqual v val = true
      · simp [checkInner, hn, hd, ih]
      · simp [checkInner, hn, hd, ih]
    · have hb : (v.Name == val.Name) = false := by simpa using hn
      simp [checkInner, hn, hb, ih]

theorem checkOuter_cons (env : List EnvVar) (val : EnvVar) (rest : List EnvVar)
    (errs : List CheckError) :
    checkOuter env (val :: rest) errs
      = checkOuter env rest
          (errs ++ (env.filter (fun v => v.Name == val.Name && !deepEqual v val)).map
              (CheckError.incorrectData val)
            ++ (if env.any (fun v => v.Name == val.Name) then []
                else [CheckError.notFound val.Name])) := by
  simp only [checkOuter, checkInner_eq, Bool.false_or]
  by_cases h : env.any (fun v => v.Name == val.Name) = true
  · simp [h]
  · simp [h]

theorem checkOuter_nil_iff (env expected : List EnvVar) (errs : List CheckError) :
    checkOuter env expected errs = []
      ↔ errs = [] ∧ ∀ e ∈ expected,
          (∃ v ∈ env, v.Name = e.Name) ∧ ∀ v ∈ env, v.Name = e.Name → v = e := by
  induction expected generalizing errs with
  | nil => simp [checkOuter]
  | cons val rest ih =>
    rw [checkOuter_cons, ih]
    by_cases h : env.any (fun v => v.Name == val.Name) = true
    · simp only [h, if_true, List.append_nil, List.append_eq_nil, List.map_eq_nil_iff,
        List.filter_eq_nil_iff, List.mem_cons, forall_eq_or_imp]
      have hex : ∃ v ∈ env, v.Name = val.Name := by
        simpa using h
      simp [deepEqual, hex]
      tauto
    · have hex : ¬ ∃ v ∈ env, v.Name = val.Name := by
        simpa using h
      simp [h, hex]

theorem checkEnvVars_nil_iff (expected env : List EnvVar) :
    checkEnvVars expected env = []
      ↔ ∀ e ∈ expected,
          (∃ v ∈ env, v.Name = e.Name) ∧ ∀ v ∈ env, v.Name = e.Name → v = e := by
  simp [checkEnvVars, checkOuter_nil_iff]

theorem hasExpectedName_of_mem (expected : List EnvVar) (e v : EnvVar) (he : e ∈ expected)
    (hn : v.Name = e.Name) : hasExpectedName expected v = true := by
  simp only [hasExpectedName, List.any_eq_true, beq_iff_eq]
  exact ⟨e, he, hn.symm⟩

/-- C7: the check reports no error exactly when, for every expected variable, the
environment has an entry of that name and every entry of that name equals the expected
variable; hence the outcome is the same for any reordering of the environment and after
dropping every entry whose name is not an expected name. -/
theorem checkEnvVars_ok_iff (expected env : List EnvVar) :
    (checkEnvVars expected env = []
        ↔ ∀ e ∈ expected,
            (∃ v ∈ env, v.Name = e.Name) ∧ ∀ v ∈ env, v.Name = e.Name → v = e)
      ∧ (∀ env2 : List EnvVar, env.Perm env2 →
          (checkEnvVars expected env = [] ↔ checkEnvVars expected env2 = []))
      ∧ (checkEnvVars expected (env.filter (hasExpectedName expected)) = []
          ↔ checkEnvVars expected env = []) := by
  refine ⟨checkEnvVars_nil_iff expected env, ?_, ?_⟩
  · intro env2 hp
    simp only [checkEnvVars_nil_iff, hp.mem_iff]
  · simp only [checkEnvVars_nil_iff, List.mem_filter]
    constructor
    · intro h e he
      obtain ⟨⟨v, hv, hn⟩, hall⟩ := h e he
      exact ⟨⟨v, hv.1, hn⟩,
        fun w hw hwn => hall w ⟨hw, hasExpectedName_of_mem expected e w he hwn⟩ hwn⟩
    · intro h e he
      obtain ⟨⟨v, hv, hn⟩, hall⟩ := h e he
      exact ⟨⟨v, ⟨hv, hasExpectedName_of_mem expected e v he hn⟩, hn⟩,
        fun w hw hwn => hall w hw.1 hwn⟩

theorem checkEnvVars_ok_iff_witness :
    checkEnvVars (awsEnvVars "s3" "bucket" "us-east-1") exampleEnv = []
      ∧ checkEnvVars (awsEnvVars "s3" "bucket" "us-east-1") exampleEnv.reverse = [] :=
  have h : checkEnvVars (awsEnvVars "s3" "bucket" "us-east-1") exampleEnv = [] := by decide
  ⟨h, ((checkEnvVars_ok_iff (awsEnvVars "s3" "bucket" "us-east-1") exampleEnv).2.1
    exampleEnv.reverse (List.reverse_perm exampleEnv).symm).mp h⟩

/-- C4: if the check against `awsEnvVars` reports no error, the environment has an entry
named `REGISTRY_STORAGE_S3_ACCESSKEY` and one named `REGISTRY_STORAGE_S3_SECRETKEY`, and
every entry with either name has an empty literal value and a source whose only non-nil
field is a `SecretKeyRef` to `image-registry-private-configuration` with the key equal to
the name of the variable. -/
theorem aws_check_secret_indirection (storageType bucket region : String)
    (env : List EnvVar)
    (h : checkEnvVars (awsEnvVars storageType bucket region) env = []) :
    (∃ v ∈ env, v.Name = "REGISTRY_STORAGE_S3_ACCESSKEY")
      ∧ (∃ v ∈ env, v.Name = "REGISTRY_STORAGE_S3_SECRETKEY")
      ∧ ∀ v ∈ env,
          v.Name = "REGISTRY_STORAGE_S3_ACCESSKEY" ∨ v.Name = "REGISTRY_STORAGE_S3_SECRETKEY" →
          v.Value = ""
            ∧ ∃ src sel, v.ValueFrom = some src
                ∧ src.FieldRef = none ∧ src.ResourceFieldRef = none
                ∧ src.ConfigMapKeyRef = none ∧ src.SecretKeyRef = some sel
                ∧ sel.LocalObjectReference.Name = "image-registry-private-configuration"
                ∧ sel.Key = v.Name := by
  rw [checkEnvVars_nil_iff] at h
  have ha := h (secretEnvVar "REGISTRY_STORAGE_S3_ACCESSKEY") (by simp [awsEnvVars])
  have hs := h (secretEnvVar "REGISTRY_STORAGE_S3_SECRETKEY") (by simp [awsEnvVars])
  refine ⟨ha.1, hs.1, ?_⟩
  intro v hv hname
  rcases hname with hn | hn
  · have hve := ha.2 v hv hn
    subst hve
    exact ⟨rfl, _, _, rfl, rfl, rfl, rfl, rfl, rfl, rfl⟩
  · have hve := hs.2 v hv hn
    subst hve
    exact ⟨rfl, _, _, rfl, rfl, rfl, rfl, rfl, rfl, rfl⟩

theorem aws_check_secret_indirection_witness :
    checkEnvVars (awsEnvVars "s3" "bucket" "us-east-1") exampleEnv = []
      ∧ ∃ v ∈ exampleEnv, v.Name = "REGISTRY_STORAGE_S3_ACCESSKEY" :=
  have h : checkEnvVars (awsEnvVars "s3" "bucket" "us-east-1") exampleEnv = [] := by decide
  ⟨h, (aws_check_secret_indirection "s3" "bucket" "us-east-1" exampleEnv h).1⟩

/-- C5: `awsEnvVars` has exactly five entries with pairwise distinct names, in the order
`REGISTRY_STORAGE`, `REGISTRY_STORAGE_S3_BUCKET`, `REGISTRY_STORAGE_S3_REGION`,
`REGISTRY_STORAGE_S3_ACCESSKEY`, `REGISTRY_STORAGE_S3_SECRETKEY`; the first three are
literal, with the storage type, the bucket and the region as value and no source, and the
last two have an empty value and a secret-key reference. -/
theorem awsEnvVars_shape (storageType bucket region : String) :
    (awsEnvVars storageType bucket region).length = 5
      ∧ (awsEnvVars storageType bucket region).map (fun v => v.Name)
          = ["REGISTRY_STORAGE", "REGISTRY_STORAGE_S3_BUCKET", "REGISTRY_STORAGE_S3_REGION",
             "REGISTRY_STORAGE_S3_ACCESSKEY", "REGISTRY_STORAGE_S3_SECRETKEY"]
      ∧ ((awsEnvVars storageType bucket region).map (fun v => v.Name)).Nodup
      ∧ ∃ v0 v1 v2 v3 v4, awsEnvVars storageType bucket region = [v0, v1, v2, v3, v4]
          ∧ v0.Value = storageType ∧ v0.ValueFrom = none
          ∧ v1.Value = bucket ∧ v1.ValueFrom = none
          ∧ v2.Value = region ∧ v2.ValueFrom = none
          ∧ v3.Value = ""
          ∧ (∃ src sel, v3.ValueFrom = some src ∧ src.SecretKeyRef = some sel
              ∧ sel.LocalObjectReference.Name = "image-registry-private-configuration"
              ∧ sel.Key = "REGISTRY_STORAGE_S3_ACCESSKEY")
          ∧ v4.Value = ""
          ∧ (∃ src sel, v4.ValueFrom = some src ∧ src.SecretKeyRef = some sel
              ∧ sel.LocalObjectReference.Name = "image-registry-private-configuration"
              ∧ sel.Key = "REGISTRY_STORAGE_S3_SECRETKEY") := by
  refine ⟨rfl, rfl, ?_, _, _, _, _, _, rfl, rfl, rfl, rfl, rfl, rfl, rfl, rfl,
    ⟨_, _, rfl, rfl, rfl, rfl⟩, rfl, ⟨_, _, rfl, rfl, rfl, rfl⟩⟩
  show ["REGISTRY_STORAGE", "REGISTRY_STORAGE_S3_BUCKET", "REGISTRY_STORAGE_S3_REGION",
    "REGISTRY_STORAGE_S3_ACCESSKEY", "REGISTRY_STORAGE_S3_SECRETKEY"].Nodup
  decide

end ImageRegistry
